import Mathlib

/-!
Verification of the MikroTik WiFi Manager firmware (ESP32 variant).

The definitions below are a shallow embedding of the C++ firmware's
handlers.  Remote JSON responses are modelled at the level the firmware
observes them after `deserializeJson`: each handler receives the parsed
entry lists (`none` models a parse failure or a non-array document) and
returns, next to the HTTP response it sends and the updated scan state,
the list of MikroTik REST calls it issued, in order.
-/

/-- 2^32, the modulus of the firmware's `unsigned long` arithmetic. -/
def UINT32_MOD : Nat := 4294967296

/-- Reduce a value into `unsigned long` range. -/
def wrap32 (n : Nat) : Nat := n % UINT32_MOD

/-- `unsigned long` addition (wraps at 2^32). -/
def add32 (a b : Nat) : Nat := (a + b) % UINT32_MOD

/-- `unsigned long` multiplication (wraps at 2^32). -/
def mul32 (a b : Nat) : Nat := (a * b) % UINT32_MOD

/-- `static_cast<unsigned long>` applied to a (possibly negative) `int`. -/
def u32ofInt (i : Int) : Nat := (i.emod (4294967296 : Int)).toNat

/-- The handler's `millis() - scanState.startTime`: unsigned 32-bit
subtraction of the recorded start stamp from the current clock. -/
def elapsedSince (now start : Nat) : Nat :=
  (wrap32 now + UINT32_MOD - wrap32 start) % UINT32_MOD

/-- Models `String::startsWith` of the Arduino core on the embedded
character lists (kernel-computable). -/
def strHasPre (pre s : String) : Bool := pre.data.isPrefixOf s.data

/-- Models `String::endsWith` of the Arduino core. -/
def strHasSuf (suf s : String) : Bool := suf.data.isSuffixOf s.data

/-- Models `String::substring(0, n)` (truncation to `n` characters). -/
def strTake (s : String) (n : Nat) : String := ⟨s.data.take n⟩

/-- Models `String::substring(n)` (drop the first `n` characters). -/
def strDrop (s : String) (n : Nat) : String := ⟨s.data.drop n⟩

/-- Models `String::indexOf(needle) != -1`, i.e. substring containment. -/
def strContains (hay needle : String) : Bool :=
  (List.range (hay.length + 1)).any (fun i => needle.data.isPrefixOf (hay.data.drop i))

/-- `const char* PROFILE_COMMENT_PREFIX = "wifi-manager:ssid="` — the hidden
identity marker put into a security profile's comment field. -/
def PROFILE_COMMENT_MARKER : String := "wifi-manager:ssid="

/-- `const char* CONFIG_FILE_PATH = "/config.json"`. -/
def CONFIG_FILE_PATH : String := "/config.json"

/-- `const char* CAPTIVE_PORTAL_SSID = "MikroTikSetup"`. -/
def CAPTIVE_PORTAL_SSID : String := "MikroTikSetup"

/-- Modelled from the spec: the compile-time constants of `config.h`
(`SCAN_RESULT_GRACE_MS`, `SCAN_POLL_INTERVAL_MS`, `SCAN_CSV_FILENAME`).
`config.h` is gitignored and not part of the repository; the spec only
calls them a fixed grace period, a fixed poll interval and a fixed
artifact filename, so they are parameters of every definition here. -/
structure FirmwareConsts where
  scanResultGraceMs : Nat
  scanPollIntervalMs : Nat
  scanCsvFilename : String
deriving Repr, DecidableEq

/-- The `RuntimeConfig` struct (scan duration is a C++ `int`). -/
structure RuntimeConfig where
  wifiSsid : String
  wifiPassword : String
  mikrotikIp : String
  mikrotikUser : String
  mikrotikPass : String
  mikrotikWlanInterface : String
  band2ghz : String
  band5ghz : String
  scanDurationSeconds : Int
deriving Repr, DecidableEq

/-- The `ScanState` struct: the scan orchestrator's only mutable record. -/
structure ScanState where
  isScanning : Bool
  hasResult : Bool
  result : String
  startTime : Nat
  band : String
  csvFilename : String
  expectedDurationMs : Nat
  minReadyMs : Nat
  resultTimeoutMs : Nat
  pollIntervalMs : Nat
deriving Repr, DecidableEq

/-- HTTP methods `mikrotikRequest` dispatches on. -/
inductive Method
  | GET
  | POST
  | PATCH
  | DELETE
deriving Repr, DecidableEq

/-- The JSON bodies the firmware serializes into its REST requests,
kept structured (one constructor per `DynamicJsonDocument` shape). -/
inductive ReqBody
  | empty
  | raw (s : String)
  | bandPatch (band : String)
  | scanTrigger (id : String) (duration : Int) (saveFile : String)
  | diskAdd
  | numbersDoc (numbers : String)
  | profilePayload (comment mode authTypes : String)
      (wpaPsk wpa2Psk : Option String) (name : Option String)
  | connectPayload (ssid band securityProfile : String)
deriving Repr, DecidableEq

/-- One `mikrotikRequest` invocation (method, REST path, body, timeout). -/
structure ApiCall where
  method : Method
  path : String
  body : ReqBody
  timeoutMs : Nat := 15000
deriving Repr, DecidableEq

/-- One entry of the parsed `/interface/wireless` response; missing JSON
keys default to `""` exactly as the `| ""` fallbacks in the source do. -/
structure IfaceEntry where
  name : String
  id : String
  band : String
deriving Repr, DecidableEq

/-- One entry of the parsed `/disk` response. -/
structure DiskEntry where
  mountPoint : String
  slot : String
  id : String
deriving Repr, DecidableEq

/-- One entry of the parsed `/file` response. -/
structure FileEntry where
  name : String
  contents : String
  id : String
deriving Repr, DecidableEq

/-- One entry of the parsed security-profiles response.  Fields are
`Option` because the source reads them with per-site defaults
(`profile["name"] | ""` in one place, `| profileName` in another) and
copies `mode` / `authentication-types` verbatim, null included. -/
structure ProfileEntry where
  name : Option String
  comment : Option String
  mode : Option String
  authTypes : Option String
deriving Repr, DecidableEq

/-- A profile summary attached to the scan success payload. -/
structure ProfileSummary where
  ssid : String
  name : String
  mode : Option String
  authTypes : Option String
deriving Repr, DecidableEq

/-- What `server.send` is given as a body: either a literal string, or
one of the structured JSON documents the firmware serializes. -/
inductive RespBody
  | text (s : String)
  | scanStarted (durationMs minReadyMs timeoutMs pollIntervalMs : Nat) (csvFilename : String)
  | scanPayload (csv band : String) (profiles : List ProfileSummary)
deriving Repr, DecidableEq

/-- One `server.send(code, contentType, body)` invocation. -/
structure HttpResponse where
  code : Nat
  contentType : String
  body : RespBody
deriving Repr, DecidableEq

def okJson (b : RespBody) : HttpResponse :=
  { code := 200, contentType := "application/json", body := b }

def captivePortalBody : String := "\x7b\"error\":\"Captive portal active\"\x7d"

/-- The 403 response `ensureOperationAllowed` sends while captive. -/
def captive403 : HttpResponse :=
  { code := 403, contentType := "application/json", body := .text captivePortalBody }

/-- `ensureOperationAllowed`: `some r` means the operation was refused and
response `r` already sent; `none` means the handler may proceed. -/
def ensureOperationAllowed (captivePortalActive : Bool) : Option HttpResponse :=
  if captivePortalActive then some captive403 else none

/-- `isPathAllowedDuringCaptive`: the fixed safelist of paths the captive
portal still serves. -/
def isPathAllowedDuringCaptive (path : String) : Bool :=
  if path == "/" || path == "/config.html" || path == "/config.js" ||
     path == "/style.css" || path == "/favicon.png" || path == "/favicon.ico" ||
     path == "/favicon@2x.png" then
    true
  else if strHasPre "/i18n/" path then
    true
  else
    false

/-- `getContentType`. -/
def getContentType (filename : String) : String :=
  if strHasSuf ".html" filename then "text/html"
  else if strHasSuf ".css" filename then "text/css"
  else if strHasSuf ".js" filename then "application/javascript"
  else if strHasSuf ".json" filename then "application/json"
  else if strHasSuf ".png" filename then "image/png"
  else if strHasSuf ".jpg" filename then "image/jpeg"
  else if strHasSuf ".ico" filename then "image/x-icon"
  else "text/plain"

/-- The path normalisation at the top of `handleFileRead`: directory
requests get `index.html` appended, and a leading slash is enforced. -/
def normalizeFilePath (path : String) : String :=
  let p := if strHasSuf "/" path then path ++ "index.html" else path
  if strHasPre "/" p then p else "/" ++ p

/-- What `handleFileRead` does with a request (it never touches the
MikroTik API). `unhandled` is the `return false` path (404 fallback). -/
inductive FileReadOutcome
  | notFound404
  | redirectToConfig
  | streamed (contents contentType : String)
  | unhandled
deriving Repr, DecidableEq

/-- LittleFS content, as an association list from path to file contents;
`LittleFS.exists`/`open` become a lookup. -/
def lookupFile (fs : List (String × String)) (p : String) : Option String :=
  (fs.find? (fun e => e.1 == p)).map (fun e => e.2)

/-- `handleFileRead`. -/
def handleFileRead (captive : Bool) (fs : List (String × String)) (path : String) :
    FileReadOutcome :=
  let path := normalizeFilePath path
  if path == CONFIG_FILE_PATH then
    .notFound404
  else if captive && !isPathAllowedDuringCaptive path then
    .redirectToConfig
  else
    let path := if captive && path == "/index.html" then "/config.html" else path
    let contentType := getContentType path
    match lookupFile fs path with
    | some contents => .streamed contents contentType
    | none => .unhandled

/-- The `GET /interface/wireless` request issued by
`fetchConfiguredWirelessInterface`. -/
def ifaceListCall : ApiCall := { method := .GET, path := "/interface/wireless", body := .empty }

/-- `fetchConfiguredWirelessInterface`: resolve the configured interface's
`.id` and current band; fails on parse error, a missing interface, or a
matching interface without `.id`. -/
def fetchConfiguredWirelessInterface (target : String) (ifaces : Option (List IfaceEntry)) :
    Option (String × String) :=
  match ifaces with
  | none => none
  | some l =>
    match l.find? (fun i => i.name == target) with
    | none => none
    | some i => if i.id.length == 0 then none else some (i.id, i.band)

/-- The `GET /disk` request shared by `ensureTmpfs` and `removeTmpfs`. -/
def getDiskCall : ApiCall := { method := .GET, path := "/disk", body := .empty }

/-- The tmp1 match of the disk loops (`mount-point` or `slot`). -/
def isTmp1 (d : DiskEntry) : Bool := d.mountPoint == "tmp1" || d.slot == "tmp1"

/-- `ensureTmpfs`: returns whether the tmpfs is available plus the calls
issued.  A parse failure returns `false`; otherwise the volume either
already exists or is created with `POST /disk/add`. -/
def ensureTmpfs (disks : Option (List DiskEntry)) : Bool × List ApiCall :=
  match disks with
  | none => (false, [getDiskCall])
  | some l =>
    if (l.find? isTmp1).isSome then
      (true, [getDiskCall])
    else
      (true, [getDiskCall, { method := .POST, path := "/disk/add", body := .diskAdd }])

/-- `removeTmpfs`: the calls one invocation of the transient-resource
release issues — always the `GET /disk` listing, plus the
`POST /disk/remove` when the first tmp1 volume has a non-empty `.id`. -/
def removeTmpfsCalls (disks : Option (List DiskEntry)) : List ApiCall :=
  match disks with
  | none => [getDiskCall]
  | some l =>
    match l.find? isTmp1 with
    | none => [getDiskCall]
    | some d =>
      if d.id.length > 0 then
        [getDiskCall, { method := .POST, path := "/disk/remove", body := .numbersDoc d.id }]
      else
        [getDiskCall]

/-- The `GET /interface/wireless/security-profiles` listing request. -/
def profilesGetCall : ApiCall :=
  { method := .GET, path := "/interface/wireless/security-profiles", body := .empty }

/-- The common path root of the security-profile mutations. -/
def securityProfilesBase : String := "/interface/wireless/security-profiles/"

/-- The profile-name fallback at the top of `ensureSecurityProfile`:
an empty hint is replaced by `"client-" + ssid.substring(0, 20)`. -/
def resolveProfileName (ssid profileName : String) : String :=
  if profileName.length == 0 then "client-" ++ strTake ssid 20 else profileName

/-- The match of the profile-search loop: display name equals the resolved
hint, or the comment equals the identity marker. -/
def profileMatches (name comment : String) (p : ProfileEntry) : Bool :=
  p.name.getD "" == name || p.comment.getD "" == comment

/-- The profile-search loop of `ensureSecurityProfile`: the first entry
matching by name or by marker comment (break on first hit). -/
def findExistingProfile (profiles : Option (List ProfileEntry)) (name comment : String) :
    Option ProfileEntry :=
  match profiles with
  | none => none
  | some l => l.find? (profileMatches name comment)

/-- The `payloadDoc` built by `ensureSecurityProfile`; the pre-shared-key
fields are absent (`none`) when `requiresPassword` holds but the password
is empty, and `name` is only attached on the create path. -/
def buildProfilePayload (comment : String) (requiresPassword : Bool) (password : String)
    (name : Option String) : ReqBody :=
  if requiresPassword then
    .profilePayload comment "dynamic-keys" "wpa-psk,wpa2-psk"
      (if password.length > 0 then some password else none)
      (if password.length > 0 then some password else none)
      name
  else
    .profilePayload comment "none" "" (some "") (some "") name

/-- Result of `ensureSecurityProfile`: the returned profile name, the REST
calls issued, and whether the "Password required for secured profile"
error path was taken (the source logs the error and aborts creation). -/
structure EnsureResult where
  profileName : String
  calls : List ApiCall
  passwordRequiredError : Bool
deriving Repr, DecidableEq

/-- `ensureSecurityProfile`.  `profiles` is the parsed security-profile
listing (`none` for a parse failure, after which the search finds
nothing).  When a matching profile's mode differs from the desired mode
it is deleted and recreated; when the mode matches it is patched in
place; otherwise a new profile is created — unless a password is
required but missing, which aborts before the create call. -/
def ensureSecurityProfile (ssid password : String) (requiresPassword known : Bool)
    (profileName : String) (profiles : Option (List ProfileEntry)) : EnsureResult :=
  let name := resolveProfileName ssid profileName
  let comment := PROFILE_COMMENT_MARKER ++ ssid
  let found := findExistingProfile profiles name comment
  let desiredMode := if requiresPassword then "dynamic-keys" else "none"
  let createCall : ApiCall :=
    { method := .POST, path := securityProfilesBase ++ "add",
      body := buildProfilePayload comment requiresPassword password (some name) }
  match found with
  | some p =>
    if p.mode.getD "" != desiredMode then
      let del : ApiCall :=
        { method := .DELETE, path := securityProfilesBase ++ p.name.getD name, body := .empty }
      if requiresPassword && password.length == 0 then
        { profileName := name, calls := [profilesGetCall, del], passwordRequiredError := true }
      else
        { profileName := name, calls := [profilesGetCall, del, createCall],
          passwordRequiredError := false }
    else
      let targetName := p.name.getD name
      { profileName := targetName,
        calls := [profilesGetCall,
          { method := .PATCH, path := securityProfilesBase ++ targetName,
            body := buildProfilePayload comment requiresPassword password none }],
        passwordRequiredError := false }
  | none =>
    if requiresPassword && password.length == 0 then
      { profileName := name, calls := [profilesGetCall], passwordRequiredError := true }
    else
      { profileName := name, calls := [profilesGetCall, createCall],
        passwordRequiredError := false }

/-- Everything a handler sends and does: the HTTP response, the scan state
afterwards, and the MikroTik REST calls issued, in order. -/
structure HandlerOut where
  response : HttpResponse
  scanState : ScanState
  calls : List ApiCall
deriving Repr, DecidableEq

def alreadyScanningBody : String := "\x7b\"status\":\"already_scanning\"\x7d"
def noResultBody : String := "\x7b\"status\":\"no_result\",\"error\":\"No scan in progress\"\x7d"
def pendingBody : String := "\x7b\"status\":\"pending\"\x7d"
def timeoutBody : String := "\x7b\"status\":\"timeout\",\"error\":\"Scan timeout\"\x7d"
def wlanNotFoundBody : String := "\x7b\"error\":\"Configured WLAN interface not found\"\x7d"
def tmpfsUnavailableBody : String := "\x7b\"error\":\"tmpfs not available\"\x7d"
def successBody : String := "\x7b\"success\":true\x7d"

/-- The environment `handleScanStart` works against: the band query
argument and the parsed remote listings, plus the `millis()` clock. -/
structure ScanStartEnv where
  bandArg : String
  ifaces : Option (List IfaceEntry)
  disks : Option (List DiskEntry)
  now : Nat
deriving Repr, DecidableEq

/-- `handleScanStart`. -/
def handleScanStart (k : FirmwareConsts) (cfg : RuntimeConfig) (captive : Bool)
    (s : ScanState) (env : ScanStartEnv) : HandlerOut :=
  match ensureOperationAllowed captive with
  | some r => ⟨r, s, []⟩
  | none =>
    let band := if env.bandArg == "" then cfg.band2ghz else env.bandArg
    if s.isScanning then
      ⟨okJson (.text alreadyScanningBody), s, []⟩
    else
      match fetchConfiguredWirelessInterface cfg.mikrotikWlanInterface env.ifaces with
      | none =>
        ⟨{ code := 404, contentType := "application/json", body := .text wlanNotFoundBody },
          s, [ifaceListCall]⟩
      | some (wlanId, currentBand) =>
        let bandCalls :=
          if band.length > 0 && currentBand != band then
            [{ method := .PATCH, path := "/interface/wireless/" ++ wlanId,
               body := .bandPatch band : ApiCall }]
          else []
        let tmp := ensureTmpfs env.disks
        if !tmp.1 then
          ⟨{ code := 500, contentType := "application/json", body := .text tmpfsUnavailableBody },
            s, [ifaceListCall] ++ bandCalls ++ tmp.2⟩
        else
          let dur := mul32 (u32ofInt cfg.scanDurationSeconds) 1000
          let s' : ScanState :=
            { isScanning := true, hasResult := false, result := "",
              startTime := wrap32 env.now, band := band, csvFilename := k.scanCsvFilename,
              expectedDurationMs := dur, minReadyMs := dur,
              resultTimeoutMs := add32 (add32 dur k.scanResultGraceMs) k.scanPollIntervalMs,
              pollIntervalMs := k.scanPollIntervalMs }
          let trigger : ApiCall :=
            { method := .POST, path := "/interface/wireless/scan",
              body := .scanTrigger cfg.mikrotikWlanInterface cfg.scanDurationSeconds
                k.scanCsvFilename,
              timeoutMs := 500 }
          ⟨okJson (.scanStarted s'.expectedDurationMs s'.minReadyMs s'.resultTimeoutMs
              s'.pollIntervalMs s'.csvFilename),
            s', [ifaceListCall] ++ bandCalls ++ tmp.2 ++ [trigger]⟩

/-- The `minReadyMs` fallback in `handleScanResult` (a zero stored value
falls back to the configured duration). -/
def effectiveMinReady (cfg : RuntimeConfig) (s : ScanState) : Nat :=
  if s.minReadyMs > 0 then s.minReadyMs else mul32 (u32ofInt cfg.scanDurationSeconds) 1000

/-- The `timeoutMs` fallback in `handleScanResult`. -/
def effectiveTimeout (k : FirmwareConsts) (cfg : RuntimeConfig) (s : ScanState) : Nat :=
  if s.resultTimeoutMs > 0 then s.resultTimeoutMs
  else add32 (add32 (effectiveMinReady cfg s) k.scanResultGraceMs) k.scanPollIntervalMs

/-- The expected artifact name (the stored filename, or the configured
default when the stored one is empty). -/
def expectedCsvFile (k : FirmwareConsts) (s : ScanState) : String :=
  if s.csvFilename.length > 0 then s.csvFilename else k.scanCsvFilename

/-- The CSV-search loop over the `/file` listing: remember contents and
`.id` of each entry matching the expected name, stopping at the first
one with non-empty contents. -/
def scanCsvLookup (files : List FileEntry) (expected : String) : String × String :=
  files.foldl
    (fun acc f =>
      if acc.1.length > 0 then acc
      else if f.name == expected then (f.contents, f.id) else acc)
    ("", "")

/-- CSV lookup including the parse-failure case (on a parse error the
contents and `.id` stay empty). -/
def csvLookupOf (k : FirmwareConsts) (s : ScanState) (files : Option (List FileEntry)) :
    String × String :=
  match files with
  | none => ("", "")
  | some fl => scanCsvLookup fl (expectedCsvFile k s)

/-- The profile summary attached to the success payload: every profile
whose comment carries the identity marker, with the SSID recovered from
the marker suffix. -/
def scanProfilesSummary (profiles : Option (List ProfileEntry)) : List ProfileSummary :=
  match profiles with
  | none => []
  | some l =>
    (l.filter (fun p => strHasPre PROFILE_COMMENT_MARKER (p.comment.getD ""))).map
      (fun p =>
        { ssid := strDrop (p.comment.getD "") PROFILE_COMMENT_MARKER.length,
          name := p.name.getD "", mode := p.mode, authTypes := p.authTypes })

/-- The `GET /file` listing request of the artifact poll. -/
def fileListCall : ApiCall := { method := .GET, path := "/file", body := .empty }

/-- The `POST /file/remove` cleanup request. -/
def fileRemoveCall (fileId : String) : ApiCall :=
  { method := .POST, path := "/file/remove", body := .numbersDoc fileId }

/-- The environment `handleScanResult` works against. -/
structure ScanResultEnv where
  now : Nat
  files : Option (List FileEntry)
  profiles : Option (List ProfileEntry)
  disks : Option (List DiskEntry)
deriving Repr, DecidableEq

/-- `handleScanResult`. -/
def handleScanResult (k : FirmwareConsts) (cfg : RuntimeConfig) (captive : Bool)
    (s : ScanState) (env : ScanResultEnv) : HandlerOut :=
  match ensureOperationAllowed captive with
  | some r => ⟨r, s, []⟩
  | none =>
    if s.hasResult then
      ⟨okJson (.text s.result),
        { s with hasResult := false, result := "", isScanning := false }, []⟩
    else if !s.isScanning then
      ⟨okJson (.text noResultBody), s, []⟩
    else
      let elapsedMs := elapsedSince env.now s.startTime
      let minReadyMs := effectiveMinReady cfg s
      let timeoutMs := effectiveTimeout k cfg s
      if elapsedMs < minReadyMs then
        ⟨okJson (.text pendingBody), s, []⟩
      else if elapsedMs > timeoutMs then
        ⟨okJson (.text timeoutBody), { s with isScanning := false },
          removeTmpfsCalls env.disks⟩
      else
        let lookup := csvLookupOf k s env.files
        if lookup.1.length == 0 then
          ⟨okJson (.text pendingBody), s, [fileListCall]⟩
        else
          let s' := { s with isScanning := false, hasResult := false, result := "" }
          let removeFileCalls := if lookup.2.length > 0 then [fileRemoveCall lookup.2] else []
          ⟨okJson (.scanPayload lookup.1 s.band (scanProfilesSummary env.profiles)),
            s', [fileListCall, profilesGetCall] ++ removeFileCalls ++ removeTmpfsCalls env.disks⟩

/-- The parsed body of a `POST /api/connect` request (`none` fields are
missing keys, replaced by the source's `|` defaults). -/
structure ConnectRequest where
  ssid : Option String
  password : Option String
  band : Option String
  requiresPassword : Option Bool
  known : Option Bool
  profileName : Option String
deriving Repr, DecidableEq

/-- `handleConnect`: reconcile the security profile, then patch the
configured interface into station mode on the requested SSID. -/
def handleConnect (cfg : RuntimeConfig) (captive : Bool) (req : ConnectRequest)
    (profiles : Option (List ProfileEntry)) (ifaces : Option (List IfaceEntry)) :
    HttpResponse × List ApiCall :=
  match ensureOperationAllowed captive with
  | some r => (r, [])
  | none =>
    let ssid := req.ssid.getD ""
    let password := req.password.getD ""
    let band := req.band.getD cfg.band2ghz
    let requiresPassword := req.requiresPassword.getD true
    let known := req.known.getD false
    let profileName := req.profileName.getD ""
    let er := ensureSecurityProfile ssid password requiresPassword known profileName profiles
    match fetchConfiguredWirelessInterface cfg.mikrotikWlanInterface ifaces with
    | none =>
      ({ code := 404, contentType := "application/json", body := .text wlanNotFoundBody },
        er.calls ++ [ifaceListCall])
    | some (wlanId, _currentBand) =>
      (okJson (.text successBody),
        er.calls ++ [ifaceListCall,
          { method := .PATCH, path := "/interface/wireless/" ++ wlanId,
            body := .connectPayload ssid band er.profileName }])

/-- `handleDisconnect`: disable the configured interface. -/
def handleDisconnect (cfg : RuntimeConfig) (captive : Bool)
    (ifaces : Option (List IfaceEntry)) : HttpResponse × List ApiCall :=
  match ensureOperationAllowed captive with
  | some r => (r, [])
  | none =>
    match fetchConfiguredWirelessInterface cfg.mikrotikWlanInterface ifaces with
    | none =>
      ({ code := 404, contentType := "application/json", body := .text wlanNotFoundBody },
        [ifaceListCall])
    | some (wlanId, _currentBand) =>
      (okJson (.text successBody),
        [ifaceListCall,
          { method := .PATCH, path := "/interface/wireless/" ++ wlanId,
            body := .raw "\x7b\"disabled\":\"yes\"\x7d" }])

/-- The five raw MikroTik responses `handleStatus` concatenates. -/
structure StatusEnv where
  interfacesResp : String
  registrationResp : String
  addressesResp : String
  routesResp : String
  dnsResp : String
deriving Repr, DecidableEq

/-- `handleStatus`: fetch five listings and wrap them, unparsed, in one
JSON object by string concatenation. -/
def handleStatus (captive : Bool) (env : StatusEnv) : HttpResponse × List ApiCall :=
  match ensureOperationAllowed captive with
  | some r => (r, [])
  | none =>
    let output :=
      "\x7b\"interfaces\":" ++ env.interfacesResp ++
      ",\"registration\":" ++ env.registrationResp ++
      ",\"addresses\":" ++ env.addressesResp ++
      ",\"routes\":" ++ env.routesResp ++
      ",\"dns\":" ++ env.dnsResp ++ "\x7d"
    (okJson (.text output),
      [ifaceListCall,
        { method := .GET, path := "/interface/wireless/registration-table", body := .empty },
        { method := .GET, path := "/ip/address", body := .empty },
        { method := .GET, path := "/ip/route", body := .empty },
        { method := .GET, path := "/ip/dns", body := .empty }])

/-- The parsed body of a `POST /api/profile/delete` request. -/
structure DeleteRequest where
  profileName : Option String
  ssid : Option String
deriving Repr, DecidableEq

/-- The managed-profile search of `handleDeleteProfile`: first profile
whose name matches the hint and whose comment carries the marker for the
given SSID, or (when an SSID is given) whose comment alone matches. -/
def findManagedProfile (l : List ProfileEntry) (profileName ssid : String) : Option String :=
  (l.find? (fun p =>
    let pName := p.name.getD ""
    let matchesComment := p.comment.getD "" == PROFILE_COMMENT_MARKER ++ ssid
    (profileName.length > 0 && pName == profileName && matchesComment) ||
    (ssid.length > 0 && matchesComment))).map (fun p => p.name.getD "")

/-- `handleDeleteProfile`.  `req = none` models a JSON parse failure of
the request body; `deleteResponse` is the raw response text of the
DELETE call, checked for the substring "error". -/
def handleDeleteProfile (captive : Bool) (req : Option DeleteRequest)
    (profiles : Option (List ProfileEntry)) (deleteResponse : String) :
    HttpResponse × List ApiCall :=
  match ensureOperationAllowed captive with
  | some r => (r, [])
  | none =>
    match req with
    | none =>
      ({ code := 400, contentType := "application/json",
         body := .text "\x7b\"error\":\"Invalid JSON\"\x7d" }, [])
    | some r =>
      let profileName := r.profileName.getD ""
      let ssid := r.ssid.getD ""
      if profileName.length == 0 && ssid.length == 0 then
        ({ code := 400, contentType := "application/json",
           body := .text "\x7b\"error\":\"Missing profileName or ssid\"\x7d" }, [])
      else
        match profiles with
        | none =>
          ({ code := 500, contentType := "application/json",
             body := .text "\x7b\"error\":\"Failed to read profiles\"\x7d" },
            [profilesGetCall])
        | some l =>
          match findManagedProfile l profileName ssid with
          | none =>
            ({ code := 404, contentType := "application/json",
               body := .text "\x7b\"error\":\"Managed profile not found\"\x7d" },
              [profilesGetCall])
          | some targetName =>
            if targetName.length == 0 then
              ({ code := 404, contentType := "application/json",
                 body := .text "\x7b\"error\":\"Managed profile not found\"\x7d" },
                [profilesGetCall])
            else
              let del : ApiCall :=
                { method := .DELETE, path := securityProfilesBase ++ targetName, body := .empty }
              if strContains deleteResponse "error" then
                ({ code := 500, contentType := "application/json",
                   body := .text "\x7b\"error\":\"Failed to delete profile\"\x7d" },
                  [profilesGetCall, del])
              else
                (okJson (.text successBody), [profilesGetCall, del])

/-- The settings document `handleSettingsGet` serializes: credentials only
appear as boolean `has_password` flags. -/
structure SettingsDoc where
  wifiSsid : String
  wifiHasPassword : Bool
  mikrotikIp : String
  mikrotikUser : String
  mikrotikHasPassword : Bool
  mikrotikWlanInterface : String
  band2ghz : String
  band5ghz : String
  scanDurationSeconds : Int
  wifiConnected : Bool
  captivePortal : Bool
  apSsid : String
deriving Repr, DecidableEq

/-- `handleSettingsGet` (the GET settings endpoint; it sends the
serialization of this document with status 200). -/
def handleSettingsGet (cfg : RuntimeConfig) (wifiConnected captive : Bool) : SettingsDoc :=
  { wifiSsid := cfg.wifiSsid,
    wifiHasPassword := decide (cfg.wifiPassword.length > 0),
    mikrotikIp := cfg.mikrotikIp,
    mikrotikUser := cfg.mikrotikUser,
    mikrotikHasPassword := decide (cfg.mikrotikPass.length > 0),
    mikrotikWlanInterface := cfg.mikrotikWlanInterface,
    band2ghz := cfg.band2ghz,
    band5ghz := cfg.band5ghz,
    scanDurationSeconds := cfg.scanDurationSeconds,
    wifiConnected := wifiConnected,
    captivePortal := captive,
    apSsid := CAPTIVE_PORTAL_SSID }

/-- The six API endpoints that are gated by `ensureOperationAllowed`. -/
inductive Endpoint
  | status
  | scanStart
  | scanResult
  | connect
  | disconnect
  | profileDelete
deriving Repr, DecidableEq

/-- The route registered for each gated endpoint in `setup()`. -/
def endpointPath : Endpoint → String
  | .status => "/api/status"
  | .scanStart => "/api/scan/start"
  | .scanResult => "/api/scan/result"
  | .connect => "/api/connect"
  | .disconnect => "/api/disconnect"
  | .profileDelete => "/api/profile/delete"

/-- A combined request environment for the endpoint dispatch. -/
structure Env where
  now : Nat
  bandArg : String
  ifaces : Option (List IfaceEntry)
  disks : Option (List DiskEntry)
  files : Option (List FileEntry)
  profiles : Option (List ProfileEntry)
  connectReq : ConnectRequest
  deleteReq : Option DeleteRequest
  deleteResponse : String
  statusEnv : StatusEnv
deriving Repr, DecidableEq

/-- Dispatch a request on a gated endpoint to its handler. -/
def dispatch (k : FirmwareConsts) (cfg : RuntimeConfig) (captive : Bool)
    (s : ScanState) (env : Env) : Endpoint → HandlerOut
  | .status =>
    let (r, c) := handleStatus captive env.statusEnv
    ⟨r, s, c⟩
  | .scanStart =>
    handleScanStart k cfg captive s
      { bandArg := env.bandArg, ifaces := env.ifaces, disks := env.disks, now := env.now }
  | .scanResult =>
    handleScanResult k cfg captive s
      { now := env.now, files := env.files, profiles := env.profiles, disks := env.disks }
  | .connect =>
    let (r, c) := handleConnect cfg captive env.connectReq env.profiles env.ifaces
    ⟨r, s, c⟩
  | .disconnect =>
    let (r, c) := handleDisconnect cfg captive env.ifaces
    ⟨r, s, c⟩
  | .profileDelete =>
    let (r, c) := handleDeleteProfile captive env.deleteReq env.profiles env.deleteResponse
    ⟨r, s, c⟩

/-! ## Helper lemmas and sample values -/

theorem string_eq_empty_iff {s : String} : s = "" ↔ s.length = 0 := by
  constructor
  · intro h; subst h; rfl
  · intro h
    cases s with
    | mk l =>
      cases l with
      | nil => rfl
      | cons a t => simp [String.length] at h

theorem effectiveMinReady_of_pos {cfg : RuntimeConfig} {s : ScanState}
    (h : 0 < s.minReadyMs) : effectiveMinReady cfg s = s.minReadyMs := by
  simp [effectiveMinReady, h]

theorem effectiveTimeout_of_pos {k : FirmwareConsts} {cfg : RuntimeConfig} {s : ScanState}
    (h : 0 < s.resultTimeoutMs) : effectiveTimeout k cfg s = s.resultTimeoutMs := by
  simp [effectiveTimeout, h]

/-- Marks the `GET /disk` listing that opens every `removeTmpfs` run. -/
def isDiskListCall (c : ApiCall) : Bool :=
  match c.method with
  | Method.GET => c.path == "/disk"
  | _ => false

theorem removeTmpfs_lists_disks_once (disks : Option (List DiskEntry)) :
    ((removeTmpfsCalls disks).filter isDiskListCall).length = 1 := by
  cases disks with
  | none => decide
  | some l =>
    cases hf : l.find? isTmp1 with
    | none =>
      simp only [removeTmpfsCalls, hf]
      decide
    | some d =>
      by_cases hid : d.id.length > 0
      · simp [removeTmpfsCalls, hf, hid, isDiskListCall, getDiskCall]
      · simp only [removeTmpfsCalls, hf, hid, if_false]
        decide

def sampleConsts : FirmwareConsts :=
  { scanResultGraceMs := 2000, scanPollIntervalMs := 1500, scanCsvFilename := "scan500.csv" }

def sampleConfig : RuntimeConfig :=
  { wifiSsid := "home", wifiPassword := "pw", mikrotikIp := "192.168.88.1",
    mikrotikUser := "admin", mikrotikPass := "secret", mikrotikWlanInterface := "wlan1",
    band2ghz := "2ghz-b/g/n", band5ghz := "5ghz-a/n", scanDurationSeconds := 5 }

/-- A scan state as `handleScanStart` leaves it for a 5-second scan
started at `millis() = 0` (grace 2000 ms, poll interval 1500 ms). -/
def scanningState : ScanState :=
  { isScanning := true, hasResult := false, result := "", startTime := 0,
    band := "2ghz-b/g/n", csvFilename := "scan500.csv", expectedDurationMs := 5000,
    minReadyMs := 5000, resultTimeoutMs := 8500, pollIntervalMs := 1500 }

def sampleStartEnv : ScanStartEnv :=
  { bandArg := "", ifaces := some [], disks := some [], now := 1234 }

/-! ## Claim theorems -/

/-- C1: a scan-start request arriving while `ScanState.isScanning` holds
(and the captive portal is not intercepting the request) is answered with
the `already_scanning` status, leaves every field of the scan state
unchanged, and issues no MikroTik request. -/
theorem scanStart_rejects_while_scanning (k : FirmwareConsts) (cfg : RuntimeConfig)
    (s : ScanState) (env : ScanStartEnv) (h : s.isScanning = true) :
    handleScanStart k cfg false s env = ⟨okJson (.text alreadyScanningBody), s, []⟩ := by
  simp [handleScanStart, ensureOperationAllowed, h]

theorem scanStart_rejects_while_scanning_witness :
    handleScanStart sampleConsts sampleConfig false scanningState sampleStartEnv =
      ⟨okJson (.text alreadyScanningBody), scanningState, []⟩ :=
  scanStart_rejects_while_scanning sampleConsts sampleConfig scanningState sampleStartEnv rfl

/-- C2: a result poll while a scan is in progress, with no buffered
result and the elapsed time still below the stored minimum-ready delay,
answers `pending`, changes nothing, and issues no MikroTik request at
all (in particular no `/file` listing). -/
theorem scanResult_pending_before_min_ready (k : FirmwareConsts) (cfg : RuntimeConfig)
    (s : ScanState) (env : ScanResultEnv)
    (hres : s.hasResult = false) (hscan : s.isScanning = true)
    (hmin : 0 < s.minReadyMs)
    (helapsed : elapsedSince env.now s.startTime < s.minReadyMs) :
    handleScanResult k cfg false s env = ⟨okJson (.text pendingBody), s, []⟩ := by
  simp [handleScanResult, ensureOperationAllowed, hres, hscan,
    effectiveMinReady_of_pos hmin, helapsed]

theorem scanResult_pending_before_min_ready_witness :
    handleScanResult sampleConsts sampleConfig false scanningState
      { now := 3000, files := some [], profiles := some [], disks := some [] } =
      ⟨okJson (.text pendingBody), scanningState, []⟩ :=
  scanResult_pending_before_min_ready sampleConsts sampleConfig scanningState
    { now := 3000, files := some [], profiles := some [], disks := some [] }
    rfl rfl (by decide) (by decide)

/-- C3: when a result poll takes the success path (scan in progress, no
buffered result, elapsed time inside the ready window, artifact found
with non-empty contents), it returns the combined payload, clears the
in-progress and result-ready flags and the buffered result, and an
immediately subsequent result poll (any config, any environment, no
intervening start) answers `no_result` without any MikroTik request. -/
theorem scanResult_success_exactly_once (k : FirmwareConsts) (cfg cfg2 : RuntimeConfig)
    (s : ScanState) (env env2 : ScanResultEnv)
    (hres : s.hasResult = false) (hscan : s.isScanning = true)
    (hmin : 0 < s.minReadyMs) (htmo : 0 < s.resultTimeoutMs)
    (h1 : ¬ elapsedSince env.now s.startTime < s.minReadyMs)
    (h2 : ¬ s.resultTimeoutMs < elapsedSince env.now s.startTime)
    (hcsv : (csvLookupOf k s env.files).1 ≠ "") :
    (handleScanResult k cfg false s env).response =
      okJson (.scanPayload (csvLookupOf k s env.files).1 s.band
        (scanProfilesSummary env.profiles)) ∧
    (handleScanResult k cfg false s env).scanState =
      { s with isScanning := false, hasResult := false, result := "" } ∧
    handleScanResult k cfg2 false (handleScanResult k cfg false s env).scanState env2 =
      ⟨okJson (.text noResultBody),
        (handleScanResult k cfg false s env).scanState, []⟩ := by
  have hlen : ((csvLookupOf k s env.files).1.length == 0) = false := by
    simp only [beq_eq_false_iff_ne, ne_eq]
    intro hz
    exact hcsv (string_eq_empty_iff.mpr hz)
  have hmain : handleScanResult k cfg false s env =
      ⟨okJson (.scanPayload (csvLookupOf k s env.files).1 s.band
          (scanProfilesSummary env.profiles)),
        { s with isScanning := false, hasResult := false, result := "" },
        [fileListCall, profilesGetCall] ++
          (if (csvLookupOf k s env.files).2.length > 0
            then [fileRemoveCall (csvLookupOf k s env.files).2] else []) ++
          removeTmpfsCalls env.disks⟩ := by
    simp [handleScanResult, ensureOperationAllowed, hres, hscan,
      effectiveMinReady_of_pos hmin, effectiveTimeout_of_pos htmo, h1, h2, hlen]
  refine ⟨by rw [hmain], by rw [hmain], ?_⟩
  rw [hmain]
  simp [handleScanResult, ensureOperationAllowed]

theorem scanResult_success_exactly_once_witness :
    (handleScanResult sampleConsts sampleConfig false scanningState
        { now := 6000, files := some [⟨"scan500.csv", "SSID,SIGNAL", "*7"⟩],
          profiles := some [], disks := some [] }).response =
      okJson (.scanPayload "SSID,SIGNAL" "2ghz-b/g/n" []) ∧
    (handleScanResult sampleConsts sampleConfig false scanningState
        { now := 6000, files := some [⟨"scan500.csv", "SSID,SIGNAL", "*7"⟩],
          profiles := some [], disks := some [] }).scanState =
      { scanningState with isScanning := false, hasResult := false, result := "" } ∧
    handleScanResult sampleConsts sampleConfig false
        (handleScanResult sampleConsts sampleConfig false scanningState
          { now := 6000, files := some [⟨"scan500.csv", "SSID,SIGNAL", "*7"⟩],
            profiles := some [], disks := some [] }).scanState
        { now := 6100, files := some [], profiles := some [], disks := some [] } =
      ⟨okJson (.text noResultBody),
        (handleScanResult sampleConsts sampleConfig false scanningState
          { now := 6000, files := some [⟨"scan500.csv", "SSID,SIGNAL", "*7"⟩],
            profiles := some [], disks := some [] }).scanState, []⟩ :=
  scanResult_success_exactly_once sampleConsts sampleConfig sampleConfig scanningState
    { now := 6000, files := some [⟨"scan500.csv", "SSID,SIGNAL", "*7"⟩],
      profiles := some [], disks := some [] }
    { now := 6100, files := some [], profiles := some [], disks := some [] }
    rfl rfl (by decide) (by decide) (by decide) (by decide) (by decide)

/-- C4: a result poll while a scan is in progress whose elapsed time
strictly exceeds the stored total timeout (with no buffered result ever
delivered) clears the in-progress flag, runs the transient-resource
release `removeTmpfs` exactly once — its calls are the whole trace and
contain exactly one `GET /disk` listing — and answers `timeout`. -/
theorem scanResult_timeout_releases_tmpfs (k : FirmwareConsts) (cfg : RuntimeConfig)
    (s : ScanState) (env : ScanResultEnv)
    (hres : s.hasResult = false) (hscan : s.isScanning = true)
    (hmin : 0 < s.minReadyMs) (htmo : 0 < s.resultTimeoutMs)
    (hord : s.minReadyMs ≤ s.resultTimeoutMs)
    (h : s.resultTimeoutMs < elapsedSince env.now s.startTime) :
    handleScanResult k cfg false s env =
      ⟨okJson (.text timeoutBody), { s with isScanning := false },
        removeTmpfsCalls env.disks⟩ ∧
    ((removeTmpfsCalls env.disks).filter isDiskListCall).length = 1 := by
  have hnotlt : ¬ elapsedSince env.now s.startTime < s.minReadyMs :=
    Nat.not_lt.mpr (le_trans hord (le_of_lt h))
  refine ⟨?_, removeTmpfs_lists_disks_once env.disks⟩
  simp [handleScanResult, ensureOperationAllowed, hres, hscan,
    effectiveMinReady_of_pos hmin, effectiveTimeout_of_pos htmo, hnotlt, h]

theorem scanResult_timeout_releases_tmpfs_witness :
    handleScanResult sampleConsts sampleConfig false scanningState
        { now := 9000, files := some [], profiles := some [],
          disks := some [⟨"tmp1", "", "*A"⟩] } =
      ⟨okJson (.text timeoutBody), { scanningState with isScanning := false },
        removeTmpfsCalls (some [⟨"tmp1", "", "*A"⟩])⟩ ∧
    ((removeTmpfsCalls (some [⟨"tmp1", "", "*A"⟩])).filter isDiskListCall).length = 1 :=
  scanResult_timeout_releases_tmpfs sampleConsts sampleConfig scanningState
    { now := 9000, files := some [], profiles := some [],
      disks := some [⟨"tmp1", "", "*A"⟩] }
    rfl rfl (by decide) (by decide) (by decide) (by decide)

/-- The remote profile list of the C5 counterexample: one profile that
matches both by name and by marker, currently in mode `none`. -/
def c5profiles : List ProfileEntry :=
  [{ name := some "client-x", comment := some "wifi-manager:ssid=x",
     mode := some "none", authTypes := some "" }]

/-- C5 counterexample: requesting the secured mode (mode differs from the
existing profile's `none`) with an empty credential issues the DELETE but
never the creating POST — the call sequence is not DELETE-then-POST. -/
theorem modeChange_without_credential_skips_create :
    (ensureSecurityProfile "x" "" true false "client-x" (some c5profiles)).calls =
      [profilesGetCall,
       { method := .DELETE, path := "/interface/wireless/security-profiles/client-x",
         body := .empty }] ∧
    (ensureSecurityProfile "x" "" true false "client-x" (some c5profiles)).calls.all
      (fun c => c.method != Method.POST) = true := by decide

/-- C5 (amended): on a mode change the matched profile is deleted and —
provided a required credential is present — recreated with a POST; with a
required-but-empty credential only the DELETE is issued; a PATCH is never
issued on the mode-change path. -/
theorem modeChange_deletes_then_creates (ssid password : String) (rp known : Bool)
    (profileName : String) (profiles : Option (List ProfileEntry)) (p : ProfileEntry)
    (hf : findExistingProfile profiles (resolveProfileName ssid profileName)
        (PROFILE_COMMENT_MARKER ++ ssid) = some p)
    (hmode : p.mode.getD "" ≠ (if rp then "dynamic-keys" else "none")) :
    ((rp = true → password ≠ "") →
      (ensureSecurityProfile ssid password rp known profileName profiles).calls =
        [profilesGetCall,
         { method := .DELETE,
           path := securityProfilesBase ++ p.name.getD (resolveProfileName ssid profileName),
           body := .empty },
         { method := .POST, path := securityProfilesBase ++ "add",
           body := buildProfilePayload (PROFILE_COMMENT_MARKER ++ ssid) rp password
             (some (resolveProfileName ssid profileName)) }]) ∧
    (rp = true → password = "" →
      (ensureSecurityProfile ssid password rp known profileName profiles).calls =
        [profilesGetCall,
         { method := .DELETE,
           path := securityProfilesBase ++ p.name.getD (resolveProfileName ssid profileName),
           body := .empty }]) ∧
    (ensureSecurityProfile ssid password rp known profileName profiles).calls.all
      (fun c => c.method != Method.PATCH) = true := by
  cases rp with
  | false =>
    have hm : p.mode.getD "" ≠ "none" := by simpa using hmode
    refine ⟨fun _ => ?_, fun hr => absurd hr (by simp), ?_⟩ <;>
      simp [ensureSecurityProfile, hf, hm, profilesGetCall]
  | true =>
    have hm : p.mode.getD "" ≠ "dynamic-keys" := by simpa using hmode
    by_cases hpw : password = ""
    · subst hpw
      refine ⟨fun hc => absurd rfl (hc rfl), fun _ _ => ?_, ?_⟩ <;>
        simp [ensureSecurityProfile, hf, hm, profilesGetCall]
    · have hlen : (password.length == 0) = false := by
        simp only [beq_eq_false_iff_ne, ne_eq]
        intro hz
        exact hpw (string_eq_empty_iff.mpr hz)
      refine ⟨fun _ => ?_, fun _ hr => absurd hr hpw, ?_⟩ <;>
        simp [ensureSecurityProfile, hf, hm, hlen, profilesGetCall]

theorem modeChange_deletes_then_creates_witness :
    ((true = true → "pw" ≠ "") →
      (ensureSecurityProfile "x" "pw" true false "client-x" (some c5profiles)).calls =
        [profilesGetCall,
         { method := .DELETE, path := securityProfilesBase ++ "client-x", body := .empty },
         { method := .POST, path := securityProfilesBase ++ "add",
           body := buildProfilePayload (PROFILE_COMMENT_MARKER ++ "x") true "pw"
             (some (resolveProfileName "x" "client-x")) }]) ∧
    (true = true → "pw" = "" →
      (ensureSecurityProfile "x" "pw" true false "client-x" (some c5profiles)).calls =
        [profilesGetCall,
         { method := .DELETE, path := securityProfilesBase ++ "client-x", body := .empty }]) ∧
    (ensureSecurityProfile "x" "pw" true false "client-x" (some c5profiles)).calls.all
      (fun c => c.method != Method.PATCH) = true := by
  have h := modeChange_deletes_then_creates "x" "pw" true false "client-x"
    (some c5profiles)
    { name := some "client-x", comment := some "wifi-manager:ssid=x",
      mode := some "none", authTypes := some "" }
    (by decide) (by decide)
  exact ⟨fun hc => by simpa [securityProfilesBase] using h.1 hc,
    fun _ hr => absurd hr (by decide), h.2.2⟩

/-- The remote profile list of the C6 counterexample: the first entry
matches only by display name, the second only by identity marker. -/
def c6profiles : List ProfileEntry :=
  [{ name := some "client-x", comment := some "unrelated",
     mode := some "dynamic-keys", authTypes := none },
   { name := some "marker-profile", comment := some "wifi-manager:ssid=x",
     mode := some "dynamic-keys", authTypes := none }]

/-- C6 counterexample: with a display-name match listed before a
marker match, the handler selects and patches the display-name match —
the marker match does not take precedence. -/
theorem nameMatch_beats_later_markerMatch :
    (ensureSecurityProfile "x" "pw" true false "client-x" (some c6profiles)).profileName =
      "client-x" ∧
    (ensureSecurityProfile "x" "pw" true false "client-x" (some c6profiles)).calls =
      [profilesGetCall,
       { method := .PATCH, path := "/interface/wireless/security-profiles/client-x",
         body := .profilePayload "wifi-manager:ssid=x" "dynamic-keys" "wpa-psk,wpa2-psk"
           (some "pw") (some "pw") none }] ∧
    (ensureSecurityProfile "x" "pw" true false "client-x" (some c6profiles)).profileName ≠
      "marker-profile" := by decide

/-- C6 (amended): the profile selected for update is the first profile in
remote list order matching by display name or by marker comment; list
position, not marker precedence, decides ties.  Observably: when that
first match is in the desired mode already, it is the profile that gets
patched and whose name is returned. -/
theorem firstMatch_is_updated (ssid password : String) (rp known : Bool)
    (profileName : String) (l : List ProfileEntry) (p : ProfileEntry)
    (hf : l.find? (profileMatches (resolveProfileName ssid profileName)
        (PROFILE_COMMENT_MARKER ++ ssid)) = some p)
    (hmode : p.mode.getD "" = (if rp then "dynamic-keys" else "none")) :
    (ensureSecurityProfile ssid password rp known profileName (some l)).profileName =
      p.name.getD (resolveProfileName ssid profileName) ∧
    (ensureSecurityProfile ssid password rp known profileName (some l)).calls =
      [profilesGetCall,
       { method := .PATCH,
         path := securityProfilesBase ++ p.name.getD (resolveProfileName ssid profileName),
         body := buildProfilePayload (PROFILE_COMMENT_MARKER ++ ssid) rp password none }] := by
  have hbne : (p.mode.getD "" != (if rp then "dynamic-keys" else "none")) = false := by
    simp [hmode]
  constructor <;> simp [ensureSecurityProfile, findExistingProfile, hf, hbne]

theorem firstMatch_is_updated_witness :
    (ensureSecurityProfile "x" "pw" true false "client-x" (some c6profiles)).profileName =
      ({ name := some "client-x", comment := some "unrelated",
         mode := some "dynamic-keys", authTypes := none } : ProfileEntry).name.getD
        (resolveProfileName "x" "client-x") ∧
    (ensureSecurityProfile "x" "pw" true false "client-x" (some c6profiles)).calls =
      [profilesGetCall,
       { method := .PATCH,
         path := securityProfilesBase ++
           ({ name := some "client-x", comment := some "unrelated",
              mode := some "dynamic-keys", authTypes := none } : ProfileEntry).name.getD
             (resolveProfileName "x" "client-x"),
         body := buildProfilePayload (PROFILE_COMMENT_MARKER ++ "x") true "pw" none }] :=
  firstMatch_is_updated "x" "pw" true false "client-x" c6profiles
    { name := some "client-x", comment := some "unrelated",
      mode := some "dynamic-keys", authTypes := none }
    (by decide) (by decide)

/-- C7: when no profile matches (or the only candidate is about to be
deleted for a mode change), a credential is required, and the supplied
credential is empty, the reconciler takes the "Password required for
secured profile" error path and never issues the profile-creation POST. -/
theorem missing_credential_blocks_creation (ssid : String) (known : Bool)
    (profileName : String) (profiles : Option (List ProfileEntry))
    (hmode : ∀ p, findExistingProfile profiles (resolveProfileName ssid profileName)
        (PROFILE_COMMENT_MARKER ++ ssid) = some p → p.mode.getD "" ≠ "dynamic-keys") :
    (ensureSecurityProfile ssid "" true known profileName profiles).passwordRequiredError =
      true ∧
    (ensureSecurityProfile ssid "" true known profileName profiles).calls.all
      (fun c => c.method != Method.POST) = true := by
  cases hf : findExistingProfile profiles (resolveProfileName ssid profileName)
      (PROFILE_COMMENT_MARKER ++ ssid) with
  | none => constructor <;> simp [ensureSecurityProfile, hf, profilesGetCall]
  | some p =>
    have hm : p.mode.getD "" ≠ "dynamic-keys" := hmode p hf
    constructor <;> simp [ensureSecurityProfile, hf, hm, profilesGetCall]

theorem missing_credential_blocks_creation_witness :
    (ensureSecurityProfile "newnet" "" true false "" (some [])).passwordRequiredError =
      true ∧
    (ensureSecurityProfile "newnet" "" true false "" (some [])).calls.all
      (fun c => c.method != Method.POST) = true :=
  missing_credential_blocks_creation "newnet" false "" (some [])
    (fun p hp => by simp [findExistingProfile] at hp)

/-- C8: while the captive fallback access point is active, every gated
API endpoint (status, scan start, scan result, connect, disconnect,
profile delete) — none of whose paths is on the captive safelist — is
answered with 403 and the `Captive portal active` error body, with no
MikroTik call and no change to the scan state. -/
theorem captive_blocks_mutating_endpoints (k : FirmwareConsts) (cfg : RuntimeConfig)
    (s : ScanState) (env : Env) (ep : Endpoint) :
    isPathAllowedDuringCaptive (endpointPath ep) = false ∧
    dispatch k cfg true s env ep =
      ⟨{ code := 403, contentType := "application/json",
         body := .text "\x7b\"error\":\"Captive portal active\"\x7d" }, s, []⟩ := by
  cases ep <;> exact ⟨by decide, rfl⟩

/-- C9: any request whose normalized file path is the runtime
configuration file `/config.json` is answered 404 by the file-serving
handler and the file is never streamed, in any captive state and
whatever LittleFS holds. -/
theorem configJson_never_served (captive : Bool) (fs : List (String × String))
    (path : String) (h : normalizeFilePath path = "/config.json") :
    handleFileRead captive fs path = FileReadOutcome.notFound404 := by
  simp [handleFileRead, h, CONFIG_FILE_PATH]

theorem configJson_never_served_witness :
    handleFileRead false [("/config.json", "wifi and router secrets")] "config.json" =
      FileReadOutcome.notFound404 :=
  configJson_never_served false [("/config.json", "wifi and router secrets")]
    "config.json" (by decide)

/-- C10: the GET settings response exposes credentials only as boolean
flags: two runtime configurations differing only in the (non-empty)
values of the WiFi password and the MikroTik password produce identical
settings documents. -/
theorem settingsGet_hides_credentials (cfg : RuntimeConfig) (p q : String)
    (wifiConnected captive : Bool)
    (h1 : cfg.wifiPassword ≠ "") (h2 : p ≠ "")
    (h3 : cfg.mikrotikPass ≠ "") (h4 : q ≠ "") :
    handleSettingsGet { cfg with wifiPassword := p, mikrotikPass := q }
        wifiConnected captive =
      handleSettingsGet cfg wifiConnected captive := by
  have pos : ∀ t : String, t ≠ "" → decide (0 < t.length) = true := by
    intro t ht
    exact decide_eq_true (Nat.pos_of_ne_zero (fun hz => ht (string_eq_empty_iff.mpr hz)))
  simp [handleSettingsGet, pos cfg.wifiPassword h1, pos p h2, pos cfg.mikrotikPass h3,
    pos q h4]

theorem settingsGet_hides_credentials_witness :
    handleSettingsGet { sampleConfig with wifiPassword := "other", mikrotikPass := "other2" }
        true false =
      handleSettingsGet sampleConfig true false :=
  settingsGet_hides_credentials sampleConfig "other" "other2" true false
    (by decide) (by decide) (by decide) (by decide)
